import Mathlib

/-!
Verification of the Okha-ai website-audit scoring pipeline.

The repository contains two parallel implementations of the pipeline:
the full browser-driven engine (class AuditEngine) and the quick
HTTP-only engine (class VercelAuditEngine in api/process-audit.js).
Numbers are modelled as rationals; Math.round is modelled as
floor (x + 1/2), which agrees with JavaScript Math.round on all inputs.
Fields that may be absent in a JavaScript object (property access
yielding undefined) are modelled as Option.
-/

namespace Audit

/-- JavaScript Math.round: round half toward positive infinity. -/
def jsRound (x : ℚ) : ℤ := ⌊x + 1/2⌋

/-- JavaScript comparison o? > c where o may be undefined: undefined
compares false. -/
def optGtQ (o : Option ℚ) (c : ℚ) : Bool :=
  match o with
  | some v => decide (c < v)
  | none => false

/-- JavaScript comparison o? < c where o may be undefined: undefined
compares false. -/
def optLtQ (o : Option ℚ) (c : ℚ) : Bool :=
  match o with
  | some v => decide (v < c)
  | none => false

/-- JavaScript comparison o? <= c where o may be undefined: undefined
compares false. -/
def optLeQ (o : Option ℚ) (c : ℚ) : Bool :=
  match o with
  | some v => decide (v ≤ c)
  | none => false

/-- Speed-to-score mapping, identical in both engines
(calculateSpeedScore in api/process-audit.js and in AuditEngine). -/
def calculateSpeedScore (loadTime : ℚ) : ℕ :=
  if loadTime ≤ 2 then 100
  else if loadTime ≤ 3 then 90
  else if loadTime ≤ 4 then 75
  else if loadTime ≤ 5 then 60
  else if loadTime ≤ 7 then 40
  else if loadTime ≤ 10 then 20
  else 0

/-- The six per-extractor slot scores read by calculateHealthScore.
Each slot is Option: a missing score property reads as undefined and
is skipped by the aggregation. -/
structure Scores where
  performance : Option ℚ
  mobile : Option ℚ
  seo : Option ℚ
  localSEO : Option ℚ
  conversion : Option ℚ
  technical : Option ℚ

/-- Contribution of one slot to totalScore: score * weight when the
score is defined, nothing otherwise. -/
def scorePart (s : Option ℚ) (w : ℚ) : ℚ :=
  match s with
  | some v => v * w
  | none => 0

/-- Contribution of one slot to totalWeight: the weight when the score
is defined, nothing otherwise. -/
def weightPart (s : Option ℚ) (w : ℚ) : ℚ :=
  match s with
  | some _ => w
  | none => 0

/-- totalScore accumulator of calculateHealthScore, with the fixed
weight table performance 0.30, mobile 0.20, seo 0.20, local 0.15,
conversion 0.10, technical 0.05. -/
def totalScore (r : Scores) : ℚ :=
  scorePart r.performance 0.3 + scorePart r.mobile 0.2 + scorePart r.seo 0.2 +
    scorePart r.localSEO 0.15 + scorePart r.conversion 0.1 + scorePart r.technical 0.05

/-- totalWeight accumulator of calculateHealthScore. -/
def totalWeight (r : Scores) : ℚ :=
  weightPart r.performance 0.3 + weightPart r.mobile 0.2 + weightPart r.seo 0.2 +
    weightPart r.localSEO 0.15 + weightPart r.conversion 0.1 + weightPart r.technical 0.05

/-- calculateHealthScore (both engines): weighted average over the
slots whose score is defined, Math.round-ed; 0 when no slot has a
score (totalWeight > 0 ? Math.round(totalScore / totalWeight) : 0). -/
def calculateHealthScore (r : Scores) : ℤ :=
  if 0 < totalWeight r then jsRound (totalScore r / totalWeight r) else 0

/-- A slot score, when present, lies in [0, 100]. -/
def InRange (o : Option ℚ) : Prop := ∀ s, o = some s → 0 ≤ s ∧ s ≤ 100

lemma scorePart_nonneg (o : Option ℚ) (w : ℚ) (hw : 0 ≤ w) (h : InRange o) :
    0 ≤ scorePart o w := by
  cases o with
  | none => simp [scorePart]
  | some s =>
      obtain ⟨h0, _⟩ := h s rfl
      simpa [scorePart] using mul_nonneg h0 hw

lemma weightPart_nonneg (o : Option ℚ) (w : ℚ) (hw : 0 ≤ w) :
    0 ≤ weightPart o w := by
  cases o <;> simp [weightPart, hw]

lemma weightPart_le_weight (o : Option ℚ) (w : ℚ) (hw : 0 ≤ w) :
    weightPart o w ≤ w := by
  cases o <;> simp [weightPart, hw]

lemma weightPart_none (w : ℚ) : weightPart none w = 0 := rfl

lemma scorePart_le (o : Option ℚ) (w : ℚ) (hw : 0 ≤ w) (h : InRange o) :
    scorePart o w ≤ 100 * weightPart o w := by
  cases o with
  | none => simp [scorePart, weightPart]
  | some s =>
      obtain ⟨_, h1⟩ := h s rfl
      simpa [scorePart, weightPart] using mul_le_mul_of_nonneg_right h1 hw

lemma totalScore_nonneg (r : Scores) (hp : InRange r.performance)
    (hm : InRange r.mobile) (hs : InRange r.seo) (hl : InRange r.localSEO)
    (hc : InRange r.conversion) (ht : InRange r.technical) :
    0 ≤ totalScore r := by
  unfold totalScore
  have := scorePart_nonneg r.performance 0.3 (by norm_num) hp
  have := scorePart_nonneg r.mobile 0.2 (by norm_num) hm
  have := scorePart_nonneg r.seo 0.2 (by norm_num) hs
  have := scorePart_nonneg r.localSEO 0.15 (by norm_num) hl
  have := scorePart_nonneg r.conversion 0.1 (by norm_num) hc
  have := scorePart_nonneg r.technical 0.05 (by norm_num) ht
  linarith

lemma totalScore_le (r : Scores) (hp : InRange r.performance)
    (hm : InRange r.mobile) (hs : InRange r.seo) (hl : InRange r.localSEO)
    (hc : InRange r.conversion) (ht : InRange r.technical) :
    totalScore r ≤ 100 * totalWeight r := by
  unfold totalScore totalWeight
  have := scorePart_le r.performance 0.3 (by norm_num) hp
  have := scorePart_le r.mobile 0.2 (by norm_num) hm
  have := scorePart_le r.seo 0.2 (by norm_num) hs
  have := scorePart_le r.localSEO 0.15 (by norm_num) hl
  have := scorePart_le r.conversion 0.1 (by norm_num) hc
  have := scorePart_le r.technical 0.05 (by norm_num) ht
  linarith

lemma jsRound_eq (x : ℚ) (n : ℤ) (h1 : (n : ℚ) ≤ x + 1/2) (h2 : x + 1/2 < n + 1) :
    jsRound x = n := by
  unfold jsRound
  exact Int.floor_eq_iff.mpr ⟨h1, by linarith⟩

lemma jsRound_nonneg (x : ℚ) (h : 0 ≤ x) : 0 ≤ jsRound x := by
  unfold jsRound
  have : ((0 : ℤ) : ℚ) ≤ x + 1/2 := by push_cast; linarith
  exact Int.le_floor.mpr this

lemma jsRound_le_hundred (x : ℚ) (h : x ≤ 100) : jsRound x ≤ 100 := by
  unfold jsRound
  have : x + 1/2 < ((100 : ℤ) : ℚ) + 1 := by push_cast; linarith
  exact Int.floor_le_iff.mpr this

/-- C1: the aggregated health score equals the weighted sum over the
extractors whose score is defined divided by the sum of those same
weights, rounded; it always lies in [0, 100] when the present
sub-scores do; and if no extractor produced a score the result is 0. -/
theorem calculateHealthScore_spec (r : Scores) (hp : InRange r.performance)
    (hm : InRange r.mobile) (hs : InRange r.seo) (hl : InRange r.localSEO)
    (hc : InRange r.conversion) (ht : InRange r.technical) :
    0 ≤ calculateHealthScore r ∧ calculateHealthScore r ≤ 100 ∧
      (0 < totalWeight r →
        calculateHealthScore r = jsRound (totalScore r / totalWeight r)) ∧
      (r.performance = none → r.mobile = none → r.seo = none →
        r.localSEO = none → r.conversion = none → r.technical = none →
        calculateHealthScore r = 0) := by
  have hts : 0 ≤ totalScore r := totalScore_nonneg r hp hm hs hl hc ht
  have htsle : totalScore r ≤ 100 * totalWeight r := totalScore_le r hp hm hs hl hc ht
  refine ⟨?_, ?_, ?_, ?_⟩
  · unfold calculateHealthScore
    split_ifs with hw
    · exact jsRound_nonneg _ (div_nonneg hts (le_of_lt hw))
    · exact le_refl 0
  · unfold calculateHealthScore
    split_ifs with hw
    · refine jsRound_le_hundred _ ?_
      rw [div_le_iff₀ hw]
      linarith
    · norm_num
  · intro hw
    unfold calculateHealthScore
    simp [hw]
  · intro h1 h2 h3 h4 h5 h6
    unfold calculateHealthScore
    simp [totalWeight, h1, h2, h3, h4, h5, h6, weightPart]

/-- Witness for C1 at a concrete set of extractor results. -/
theorem calculateHealthScore_spec_witness :
    0 ≤ calculateHealthScore ⟨some 80, some 70, none, some 50, none, some 100⟩ ∧
      calculateHealthScore ⟨some 80, some 70, none, some 50, none, some 100⟩ ≤ 100 ∧
      (0 < totalWeight ⟨some 80, some 70, none, some 50, none, some 100⟩ →
        calculateHealthScore ⟨some 80, some 70, none, some 50, none, some 100⟩ =
          jsRound (totalScore ⟨some 80, some 70, none, some 50, none, some 100⟩ /
            totalWeight ⟨some 80, some 70, none, some 50, none, some 100⟩)) ∧
      ((some (80 : ℚ) = none) → (some (70 : ℚ) = none) → (none = (none : Option ℚ)) →
        (some (50 : ℚ) = none) → (none = (none : Option ℚ)) → (some (100 : ℚ) = none) →
        calculateHealthScore ⟨some 80, some 70, none, some 50, none, some 100⟩ = 0) :=
  calculateHealthScore_spec ⟨some 80, some 70, none, some 50, none, some 100⟩
    (fun s hs => by simp at hs; subst hs; norm_num)
    (fun s hs => by simp at hs; subst hs; norm_num)
    (fun s hs => by simp at hs)
    (fun s hs => by simp at hs; subst hs; norm_num)
    (fun s hs => by simp at hs)
    (fun s hs => by simp at hs; subst hs; norm_num)

/-- C5: the performance speed score is monotonically non-increasing in
load time, and equals the fixed breakpoint mapping. -/
theorem calculateSpeedScore_spec (t1 t2 : ℚ) (h : t1 ≤ t2) :
    calculateSpeedScore t2 ≤ calculateSpeedScore t1 ∧
      calculateSpeedScore t1 =
        (if t1 ≤ 2 then 100 else if t1 ≤ 3 then 90 else if t1 ≤ 4 then 75
          else if t1 ≤ 5 then 60 else if t1 ≤ 7 then 40 else if t1 ≤ 10 then 20
          else 0) := by
  constructor
  · unfold calculateSpeedScore
    split_ifs <;> first | omega | (exfalso; linarith)
  · rfl

/-- Witness for C5 at load times 2 and 3. -/
theorem calculateSpeedScore_spec_witness :
    calculateSpeedScore 3 ≤ calculateSpeedScore 2 ∧
      calculateSpeedScore 2 =
        (if (2 : ℚ) ≤ 2 then 100 else if (2 : ℚ) ≤ 3 then 90 else if (2 : ℚ) ≤ 4 then 75
          else if (2 : ℚ) ≤ 5 then 60 else if (2 : ℚ) ≤ 7 then 40 else if (2 : ℚ) ≤ 10 then 20
          else 0) :=
  calculateSpeedScore_spec 2 3 (by norm_num)

/-- The SEO issues record produced by checkSEO / analyzeSEO: boolean
flags plus the image alt-tag counters. -/
structure SEOIssues where
  missingTitle : Bool
  titleTooShort : Bool
  titleTooLong : Bool
  missingMetaDescription : Bool
  metaDescriptionTooShort : Bool
  metaDescriptionTooLong : Bool
  noH1 : Bool
  multipleH1 : Bool
  missingAltTags : ℕ
  totalImages : ℕ

/-- calculateSEOScore (api/process-audit.js): sequential penalty
subtraction from 100, floored at 0.  The AuditEngine variant is
identical except that its alt-tag branch omits the totalImages > 0
guard; the two coincide whenever missingAltTags ≤ totalImages, which
every producer of SEOIssues guarantees (missing-alt images are a
subset of all images). -/
def calculateSEOScore (issues : SEOIssues) : ℚ :=
  let score : ℚ := 100
  let score := if issues.missingTitle then score - 25 else score
  let score := if issues.titleTooShort || issues.titleTooLong then score - 15 else score
  let score := if issues.missingMetaDescription then score - 20 else score
  let score := if issues.metaDescriptionTooShort || issues.metaDescriptionTooLong then
    score - 10 else score
  let score := if issues.noH1 then score - 20 else score
  let score := if issues.multipleH1 then score - 15 else score
  let score := if 0 < issues.missingAltTags ∧ 0 < issues.totalImages then
    score - min 20 ((issues.missingAltTags : ℚ) / (issues.totalImages : ℚ) * 20)
  else score
  max 0 score

/-- Points deducted for the title rules (25 missing + 15 length out of
range). -/
def titlePenalty (i : SEOIssues) : ℚ :=
  (if i.missingTitle then 25 else 0) + (if i.titleTooShort || i.titleTooLong then 15 else 0)

/-- Points deducted for the meta-description rules (20 missing + 10
length out of range). -/
def metaPenalty (i : SEOIssues) : ℚ :=
  (if i.missingMetaDescription then 20 else 0) +
    (if i.metaDescriptionTooShort || i.metaDescriptionTooLong then 10 else 0)

/-- Points deducted for the H1 rules (20 none + 15 multiple). -/
def h1Penalty (i : SEOIssues) : ℚ :=
  (if i.noH1 then 20 else 0) + (if i.multipleH1 then 15 else 0)

/-- Proportional alt-tag penalty, capped at 20. -/
def altPenalty (i : SEOIssues) : ℚ :=
  if 0 < i.missingAltTags ∧ 0 < i.totalImages then
    min 20 ((i.missingAltTags : ℚ) / (i.totalImages : ℚ) * 20)
  else 0

lemma ite_sub_eq (c : Prop) [Decidable c] (x k : ℚ) :
    (if c then x - k else x) = x - (if c then k else 0) := by
  split_ifs <;> ring

lemma ite_add_eq (c : Prop) [Decidable c] (x k : ℚ) :
    (if c then x + k else x) = x + (if c then k else 0) := by
  split_ifs <;> ring

lemma calculateSEOScore_closed (i : SEOIssues) :
    calculateSEOScore i =
      max 0 (100 - titlePenalty i - metaPenalty i - h1Penalty i - altPenalty i) := by
  simp only [calculateSEOScore, titlePenalty, metaPenalty, h1Penalty, altPenalty, ite_sub_eq]
  congr 1
  ring

/-- C3: the SEO score equals 100 minus the listed penalties (25/15
title, 20/10 meta description, 20/15 H1, proportional alt-tag penalty
capped at 20), floored at 0, and is never negative. -/
theorem calculateSEOScore_spec (i : SEOIssues) :
    calculateSEOScore i =
      max 0 (100 - ((if i.missingTitle then 25 else 0) +
          (if i.titleTooShort || i.titleTooLong then 15 else 0)) -
        ((if i.missingMetaDescription then 20 else 0) +
          (if i.metaDescriptionTooShort || i.metaDescriptionTooLong then 10 else 0)) -
        ((if i.noH1 then 20 else 0) + (if i.multipleH1 then 15 else 0)) -
        (if 0 < i.missingAltTags ∧ 0 < i.totalImages then
          min 20 ((i.missingAltTags : ℚ) / (i.totalImages : ℚ) * 20)
        else 0)) ∧
    0 ≤ calculateSEOScore i := by
  refine ⟨calculateSEOScore_closed i, ?_⟩
  rw [calculateSEOScore_closed i]
  exact le_max_left 0 _

/-- Issue-record derivation of checkSEO (api/process-audit.js): flags
computed from the extracted title, meta description, H1 count and
image counts.  An absent title or meta description extracts as the
empty string. -/
def mkSEOIssues (title metaDescription : String) (h1Count totalImgs noAlt : ℕ) :
    SEOIssues where
  missingTitle := decide (title.length = 0)
  titleTooShort := decide (title.length < 30)
  titleTooLong := decide (title.length > 60)
  missingMetaDescription := decide (metaDescription.length = 0)
  metaDescriptionTooShort := decide (metaDescription.length < 120)
  metaDescriptionTooLong := decide (metaDescription.length > 160)
  noH1 := decide (h1Count = 0)
  multipleH1 := decide (h1Count > 1)
  missingAltTags := noAlt
  totalImages := totalImgs

/-- C9: a missing title sets both missingTitle and titleTooShort, so
the title rules cost 40 points together; a missing meta description
sets both of its flags, costing 30 points together; and these amounts
are exactly what calculateSEOScore deducts. -/
theorem mkSEOIssues_missing_spec (t md : String) (h1Count totalImgs noAlt : ℕ) :
    (mkSEOIssues "" md h1Count totalImgs noAlt).missingTitle = true ∧
      (mkSEOIssues "" md h1Count totalImgs noAlt).titleTooShort = true ∧
      titlePenalty (mkSEOIssues "" md h1Count totalImgs noAlt) = 40 ∧
      calculateSEOScore (mkSEOIssues "" md h1Count totalImgs noAlt) =
        max 0 (100 - 40 - metaPenalty (mkSEOIssues "" md h1Count totalImgs noAlt) -
          h1Penalty (mkSEOIssues "" md h1Count totalImgs noAlt) -
          altPenalty (mkSEOIssues "" md h1Count totalImgs noAlt)) ∧
      (mkSEOIssues t "" h1Count totalImgs noAlt).missingMetaDescription = true ∧
      (mkSEOIssues t "" h1Count totalImgs noAlt).metaDescriptionTooShort = true ∧
      metaPenalty (mkSEOIssues t "" h1Count totalImgs noAlt) = 30 ∧
      calculateSEOScore (mkSEOIssues t "" h1Count totalImgs noAlt) =
        max 0 (100 - titlePenalty (mkSEOIssues t "" h1Count totalImgs noAlt) - 30 -
          h1Penalty (mkSEOIssues t "" h1Count totalImgs noAlt) -
          altPenalty (mkSEOIssues t "" h1Count totalImgs noAlt)) := by
  have htp : titlePenalty (mkSEOIssues "" md h1Count totalImgs noAlt) = 40 := by
    simp [titlePenalty, mkSEOIssues]
    norm_num
  have hmp : metaPenalty (mkSEOIssues t "" h1Count totalImgs noAlt) = 30 := by
    simp [metaPenalty, mkSEOIssues]
    norm_num
  refine ⟨by simp [mkSEOIssues], by simp [mkSEOIssues], htp, ?_, by simp [mkSEOIssues],
    by simp [mkSEOIssues], hmp, ?_⟩
  · rw [calculateSEOScore_closed, htp]
  · rw [calculateSEOScore_closed, hmp]

namespace AuditEngine

/-- The audit-result fields read by the AuditEngine revenue projector
and issue classifier.  Option models a field whose owning extractor
failed to produce it (JavaScript optional chaining yields undefined,
which compares false). -/
structure AuditFindings where
  perfMobileLoadTime : Option ℚ
  mobileScore : Option ℚ
  seoScore : Option ℚ
  seoMissingTitle : Bool
  seoMissingMetaDescription : Bool
  seoMissingAltTags : ℕ
  phoneVisible : Bool
  contactFormPresent : Bool
  localScore : Option ℚ

/-- Base monthly revenue range of one business category. -/
structure RevenueRange where
  min : ℚ
  max : ℚ
deriving DecidableEq

/-- Rounded projection returned by calculateRevenueProjection. -/
structure RevenueProjection where
  min : ℤ
  max : ℤ
deriving DecidableEq

/-- Base revenue projections table keyed by business category
(identical in both engines). -/
def baseProjections (businessType : String) : Option RevenueRange :=
  if businessType = "restaurant" then some ⟨2000, 5000⟩
  else if businessType = "home-services" then some ⟨3000, 8000⟩
  else if businessType = "healthcare" then some ⟨5000, 15000⟩
  else if businessType = "automotive" then some ⟨2500, 6000⟩
  else if businessType = "retail" then some ⟨1500, 4000⟩
  else if businessType = "professional-services" then some ⟨3000, 10000⟩
  else none

/-- baseProjections[businessType] with fallback to the retail entry
(the inner fallback of 0 is unreachable: "retail" is in the table). -/
def baseFor (businessType : String) : RevenueRange :=
  match baseProjections businessType with
  | some b => b
  | none =>
      match baseProjections "retail" with
      | some b => b
      | none => ⟨0, 0⟩

/-- Categories whose local score is consulted by the projector. -/
def locationDependent : List String :=
  ["restaurant", "home-services", "healthcare", "automotive"]

/-- Multiplier accumulation of AuditEngine.calculateRevenueProjection:
starts at 1.0 and adds per triggered finding; a mobile load time
above 8 seconds satisfies both load-time conditions. -/
def revenueMultiplier (a : AuditFindings) (businessType : String) : ℚ :=
  let m : ℚ := 1.0
  let m := if Audit.optGtQ a.perfMobileLoadTime 5 then m + 0.3 else m
  let m := if Audit.optGtQ a.perfMobileLoadTime 8 then m + 0.5 else m
  let m := if Audit.optLtQ a.mobileScore 50 then m + 0.4 else m
  let m := if Audit.optLtQ a.seoScore 60 then m + 0.3 else m
  let m := if !a.phoneVisible then m + 0.4 else m
  let m := if !a.contactFormPresent then m + 0.2 else m
  let m := if locationDependent.contains businessType && Audit.optLtQ a.localScore 50 then
    m + 0.5 else m
  m

/-- AuditEngine.calculateRevenueProjection: base range of the category
scaled by the accumulated multiplier, Math.round-ed. -/
def calculateRevenueProjection (a : AuditFindings) (businessType : String) :
    RevenueProjection :=
  let base := baseFor businessType
  let m := revenueMultiplier a businessType
  ⟨Audit.jsRound (base.min * m), Audit.jsRound (base.max * m)⟩

/-- The concrete scenario of the claim: mobile load time 9.0 s,
phone not visible, and no other multiplier trigger. -/
def exampleFindings : AuditFindings where
  perfMobileLoadTime := some 9
  mobileScore := some 50
  seoScore := some 60
  seoMissingTitle := false
  seoMissingMetaDescription := false
  seoMissingAltTags := 0
  phoneVisible := false
  contactFormPresent := true
  localScore := some 50

/-- C2: a mobile load time above 8 seconds triggers both the +0.3 and
the +0.5 increments, i.e. +0.8 over the multiplier with no load-time
finding; and for load time 9.0 s, category home-services, phone not
visible and no other trigger, the projection is (6600, 17600). -/
theorem calculateRevenueProjection_spec (a : AuditFindings) (businessType : String)
    (t : ℚ) (hlt : a.perfMobileLoadTime = some t) (h8 : 8 < t) :
    revenueMultiplier a businessType =
      revenueMultiplier { a with perfMobileLoadTime := none } businessType + 0.8 ∧
      calculateRevenueProjection exampleFindings "home-services" = ⟨6600, 17600⟩ := by
  constructor
  · have h5 : Audit.optGtQ a.perfMobileLoadTime 5 = true := by
      simp [Audit.optGtQ, hlt]
      linarith
    have h8t : Audit.optGtQ a.perfMobileLoadTime 8 = true := by
      simp [Audit.optGtQ, hlt]
      exact h8
    simp only [revenueMultiplier, ite_add_eq, h5, h8t]
    simp [Audit.optGtQ]
    ring
  · have hbase : baseFor "home-services" = ⟨3000, 8000⟩ := rfl
    have hm : revenueMultiplier exampleFindings "home-services" = 2.2 := by
      norm_num [revenueMultiplier, exampleFindings, Audit.optGtQ, Audit.optLtQ,
        locationDependent]
    simp only [calculateRevenueProjection, hbase, hm]
    have hmin : Audit.jsRound ((3000 : ℚ) * 2.2) = 6600 :=
      Audit.jsRound_eq _ _ (by norm_num) (by norm_num)
    have hmax : Audit.jsRound ((8000 : ℚ) * 2.2) = 17600 :=
      Audit.jsRound_eq _ _ (by norm_num) (by norm_num)
    rw [hmin, hmax]

/-- Witness for C2 at the concrete scenario itself. -/
theorem calculateRevenueProjection_spec_witness :
    revenueMultiplier exampleFindings "home-services" =
      revenueMultiplier { exampleFindings with perfMobileLoadTime := none }
        "home-services" + 0.8 ∧
      calculateRevenueProjection exampleFindings "home-services" = ⟨6600, 17600⟩ :=
  calculateRevenueProjection_spec exampleFindings "home-services" 9 rfl (by norm_num)

/-- An issue record; description and solution are fixed per rule, so
title plus impact label identify the rule that appended it. -/
structure Issue where
  title : String
  impact : String
deriving DecidableEq

/-- Severity buckets of AuditEngine.categorizeIssues; list order is
the fixed push order of the source. -/
structure IssueBuckets where
  critical : List Issue
  high : List Issue
  medium : List Issue

/-- AuditEngine.categorizeIssues: each rule is an independent if that
pushes one fixed issue onto its tier. -/
def categorizeIssues (r : AuditFindings) : IssueBuckets where
  critical :=
    (if Audit.optGtQ r.perfMobileLoadTime 8 then
      [⟨"Extremely Slow Mobile Loading", "High"⟩] else []) ++
    (if !r.phoneVisible then [⟨"Phone Number Not Visible", "High"⟩] else []) ++
    (if Audit.optLtQ r.mobileScore 40 then [⟨"Mobile Website Unusable", "High"⟩] else [])
  high :=
    (if r.seoMissingTitle || r.seoMissingMetaDescription then
      [⟨"Missing SEO Basics", "Medium"⟩] else []) ++
    (if Audit.optGtQ r.perfMobileLoadTime 5 && Audit.optLeQ r.perfMobileLoadTime 8 then
      [⟨"Slow Mobile Loading", "Medium"⟩] else []) ++
    (if Audit.optLtQ r.localScore 50 then [⟨"Poor Local SEO Setup", "Medium"⟩] else [])
  medium :=
    (if !r.contactFormPresent then [⟨"No Contact Form", "Low"⟩] else []) ++
    (if 0 < r.seoMissingAltTags then [⟨"Missing Image Alt Tags", "Low"⟩] else [])

/-- Number of issues in a list bearing a given title. -/
def countTitle (l : List Issue) (t : String) : ℕ :=
  (l.filter (fun i => i.title == t)).length

/-- C4: with mobile load time 9.0 s and phone not visible the
classifier emits at least two critical issues, and each critical rule
(load time > 8 s, phone not visible, mobile score < 40) independently
appends exactly one issue per run. -/
theorem categorizeIssues_spec (r : AuditFindings) :
    (r.perfMobileLoadTime = some 9 → r.phoneVisible = false →
      2 ≤ (categorizeIssues r).critical.length) ∧
    countTitle (categorizeIssues r).critical "Extremely Slow Mobile Loading" =
      (if Audit.optGtQ r.perfMobileLoadTime 8 then 1 else 0) ∧
    countTitle (categorizeIssues r).critical "Phone Number Not Visible" =
      (if r.phoneVisible then 0 else 1) ∧
    countTitle (categorizeIssues r).critical "Mobile Website Unusable" =
      (if Audit.optLtQ r.mobileScore 40 then 1 else 0) := by
  refine ⟨?_, ?_, ?_, ?_⟩
  · intro h9 hpv
    have h8 : Audit.optGtQ r.perfMobileLoadTime 8 = true := by
      simp [Audit.optGtQ, h9]
      norm_num
    simp only [categorizeIssues, h8, hpv]
    split_ifs <;> simp_all
  · simp only [categorizeIssues, countTitle, List.filter_append, List.length_append]
    split_ifs <;> simp_all
  · simp only [categorizeIssues, countTitle, List.filter_append, List.length_append]
    rcases hpv : r.phoneVisible <;> split_ifs <;> simp_all
  · simp only [categorizeIssues, countTitle, List.filter_append, List.length_append]
    split_ifs <;> simp_all

/-- Witness for C4 at the concrete scenario. -/
theorem categorizeIssues_spec_witness :
    2 ≤ (categorizeIssues exampleFindings).critical.length :=
  (categorizeIssues_spec exampleFindings).1 rfl rfl

/-- Category-specific local keyword vocabulary table of
AuditEngine.analyzeLocalSEO. -/
def localKeywordPatterns (businessType : String) : Option (List String) :=
  if businessType = "restaurant" then
    some ["restaurant", "dining", "menu", "reservations", "local food"]
  else if businessType = "home-services" then
    some ["local", "service area", "residential", "commercial", "licensed"]
  else if businessType = "healthcare" then
    some ["local", "patients", "appointments", "office hours"]
  else if businessType = "retail" then
    some ["store", "shop", "location", "hours", "local"]
  else if businessType = "automotive" then
    some ["auto", "car", "vehicle", "service", "repair", "local"]
  else none

/-- localKeywordPatterns[bizType] with fallback to the retail entry
(the inner fallback is unreachable: "retail" is in the table). -/
def patternsFor (businessType : String) : List String :=
  match localKeywordPatterns businessType with
  | some p => p
  | none =>
      match localKeywordPatterns "retail" with
      | some p => p
      | none => []

/-- C6: a business category outside the base-projection table resolves
to retail's base range 1500..4000, and a category outside the local
keyword table matches against retail's vocabulary. -/
theorem categoryFallback_spec (businessType : String) :
    (businessType ∉ ["restaurant", "home-services", "healthcare", "automotive",
        "retail", "professional-services"] →
      baseFor businessType = ⟨1500, 4000⟩) ∧
    (businessType ∉ ["restaurant", "home-services", "healthcare", "retail",
        "automotive"] →
      patternsFor businessType = ["store", "shop", "location", "hours", "local"]) := by
  constructor
  · intro h
    simp only [List.mem_cons, List.not_mem_nil, or_false, not_or] at h
    obtain ⟨h1, h2, h3, h4, h5, h6⟩ := h
    simp [baseFor, baseProjections, h1, h2, h3, h4, h5, h6]
  · intro h
    simp only [List.mem_cons, List.not_mem_nil, or_false, not_or] at h
    obtain ⟨h1, h2, h3, h4, h5⟩ := h
    simp [patternsFor, localKeywordPatterns, h1, h2, h3, h4, h5]

/-- Witness for C6 at a category missing from both tables. -/
theorem categoryFallback_spec_witness :
    baseFor "landscaping" = ⟨1500, 4000⟩ ∧
      patternsFor "landscaping" = ["store", "shop", "location", "hours", "local"] :=
  ⟨(categoryFallback_spec "landscaping").1 (by decide),
    (categoryFallback_spec "landscaping").2 (by decide)⟩

/-- Shape of the object returned by the catch branch of
AuditEngine.analyzeMobile: friendly false, empty issues, an error
note, and no score property. -/
structure EngineMobileResult where
  friendly : Bool
  score : Option ℚ
  error : Option String

/-- Error-branch result of AuditEngine.analyzeMobile. -/
def analyzeMobileErrorResult (msg : String) : EngineMobileResult where
  friendly := false
  score := none
  error := some msg

/-- Shape of the object returned by the catch branch of
AuditEngine.analyzeSEO: empty data and issues, an error note, and no
score property. -/
structure EngineSEOResult where
  score : Option ℚ
  error : Option String

/-- Error-branch result of AuditEngine.analyzeSEO. -/
def analyzeSEOErrorResult (msg : String) : EngineSEOResult where
  score := none
  error := some msg

/-- Shape shared by the catch-branch objects of analyzeLocalSEO,
analyzeConversion and analyzeTechnical: score 0 plus an error note. -/
structure EngineScoredResult where
  score : Option ℚ
  error : Option String

/-- Error-branch result of AuditEngine.analyzeLocalSEO. -/
def analyzeLocalSEOErrorResult (msg : String) : EngineScoredResult where
  score := some 0
  error := some msg

/-- Error-branch result of AuditEngine.analyzeConversion. -/
def analyzeConversionErrorResult (msg : String) : EngineScoredResult where
  score := some 0
  error := some msg

/-- Error-branch result of AuditEngine.analyzeTechnical. -/
def analyzeTechnicalErrorResult (msg : String) : EngineScoredResult where
  score := some 0
  error := some msg

/-- Shape of the catch-branch object of AuditEngine.analyzePerformance:
zeroed desktop and mobile sub-scores plus an error note. -/
structure EnginePerfErrorResult where
  desktopScore : Option ℚ
  mobileScore : Option ℚ
  error : Option String

/-- Error-branch result of AuditEngine.analyzePerformance. -/
def analyzePerformanceErrorResult (msg : String) : EnginePerfErrorResult where
  desktopScore := some 0
  mobileScore := some 0
  error := some msg

/-- C8 counterexample: the analyzeMobile error-branch result carries
no score at all, so its score is not a defined 0. -/
theorem analyzeMobileError_score_not_zero :
    (analyzeMobileErrorResult "net timeout").score ≠ some 0 := by
  simp [analyzeMobileErrorResult]

/-- C8 amended: on an internal failure, analyzePerformance,
analyzeLocalSEO, analyzeConversion and analyzeTechnical degrade to
score-0 results with an error note, but analyzeMobile and analyzeSEO
return results with no score field, so their weight is dropped from
the health aggregation instead of being zero-filled. -/
theorem extractorErrorResult_scores (msg : String) :
    (analyzeLocalSEOErrorResult msg).score = some 0 ∧
      (analyzeConversionErrorResult msg).score = some 0 ∧
      (analyzeTechnicalErrorResult msg).score = some 0 ∧
      (analyzePerformanceErrorResult msg).desktopScore = some 0 ∧
      (analyzePerformanceErrorResult msg).mobileScore = some 0 ∧
      (analyzeMobileErrorResult msg).score = none ∧
      (analyzeSEOErrorResult msg).score = none ∧
      (analyzeMobileErrorResult msg).error = some msg ∧
      (analyzeSEOErrorResult msg).error = some msg :=
  ⟨rfl, rfl, rfl, rfl, rfl, rfl, rfl, rfl, rfl⟩

end AuditEngine

namespace VercelAuditEngine

/-- Mobile issue flags of the quick engine's mobile result. -/
structure MobileIssues where
  viewportNotSet : Bool
  textTooSmall : Bool
  clickTargetsTooClose : Bool
  contentWiderThanScreen : Bool
deriving DecidableEq

/-- The all-clear flag set. -/
def noMobileIssues : MobileIssues where
  viewportNotSet := false
  textTooSmall := false
  clickTargetsTooClose := false
  contentWiderThanScreen := false

/-- Result of analyzeMobileReadiness / basicMobileAnalysis. -/
structure MobileResult where
  friendly : Bool
  score : ℚ
  googleMobileFriendly : Option Bool
  basicAnalysis : Bool
  issues : MobileIssues

/-- basicMobileAnalysis (api/process-audit.js): last-resort fallback
deriving the mobile score from the SEO score. -/
def basicMobileAnalysis (seoScore : ℚ) : MobileResult :=
  let score : ℚ := if seoScore > 70 then 80 else 60
  { friendly := decide (score > 70)
    score := score
    googleMobileFriendly := none
    basicAnalysis := true
    issues := noMobileIssues }

/-- analyzeMobileReadiness (api/process-audit.js): branches on the
third-party mobile-friendliness verdict; any unavailable or
unrecognized verdict (including a provider error) falls back to
basicMobileAnalysis. -/
def analyzeMobileReadiness (mobileFriendliness : Option String) (seoScore : ℚ) :
    MobileResult :=
  match mobileFriendliness with
  | some v =>
      if v = "MOBILE_FRIENDLY" then
        { friendly := true
          score := 90
          googleMobileFriendly := some true
          basicAnalysis := false
          issues := noMobileIssues }
      else if v = "NOT_MOBILE_FRIENDLY" then
        { friendly := false
          score := 30
          googleMobileFriendly := some false
          basicAnalysis := false
          issues := noMobileIssues }
      else basicMobileAnalysis seoScore
  | none => basicMobileAnalysis seoScore

/-- C7: a positive third-party verdict gives score 90, friendly, no
issue flags; a negative verdict gives score 30, not friendly; with no
verdict the score is derived from the SEO score (above 70 gives 80,
otherwise 60) and the result is flagged as a basic analysis. -/
theorem analyzeMobileReadiness_spec (seoScore : ℚ) :
    (analyzeMobileReadiness (some "MOBILE_FRIENDLY") seoScore).score = 90 ∧
      (analyzeMobileReadiness (some "MOBILE_FRIENDLY") seoScore).friendly = true ∧
      (analyzeMobileReadiness (some "MOBILE_FRIENDLY") seoScore).issues =
        noMobileIssues ∧
      (analyzeMobileReadiness (some "NOT_MOBILE_FRIENDLY") seoScore).score = 30 ∧
      (analyzeMobileReadiness (some "NOT_MOBILE_FRIENDLY") seoScore).friendly = false ∧
      (analyzeMobileReadiness none seoScore).score =
        (if seoScore > 70 then 80 else 60) ∧
      (analyzeMobileReadiness none seoScore).basicAnalysis = true := by
  refine ⟨rfl, rfl, rfl, ?_, ?_, ?_, rfl⟩
  · simp [analyzeMobileReadiness]
  · simp [analyzeMobileReadiness]
  · simp [analyzeMobileReadiness, basicMobileAnalysis]

/-- Mobile or desktop timing block of the quick engine's performance
result. -/
structure QuickPerfTiming where
  loadTime : ℚ
  score : ℚ

/-- Shape of the object returned by checkPerformance and
basicPerformanceCheck (api/process-audit.js): scores live only under
the nested mobile and desktop keys; no branch puts a score property
at the top level. -/
structure QuickPerfResult where
  mobile : QuickPerfTiming
  desktop : QuickPerfTiming
  googleInsights : Bool
  basicCheck : Bool
  error : Option String

/-- The quick engine's calculateHealthScore reads the top-level score
property of each section; on a QuickPerfResult that property does not
exist, so the read yields undefined. -/
def quickPerfTopScore (_ : QuickPerfResult) : Option ℚ := none

/-- Health-score assembly of runQuickAudit: the six section scores
handed to calculateHealthScore, with the performance slot holding the
(absent) top-level score of the performance result. -/
def runQuickAuditHealthScore (perf : QuickPerfResult)
    (mobile seo localSub conversion technical : Option ℚ) : ℤ :=
  Audit.calculateHealthScore
    ⟨quickPerfTopScore perf, mobile, seo, localSub, conversion, technical⟩

/-- Stated from the claim's words, for comparison: aggregation over at
most the mobile, seo, local, conversion and technical results, with
the performance weight 0.30 absent from numerator and denominator. -/
def quickAggregateSpec (mobile seo localSub conversion technical : Option ℚ) : ℤ :=
  let ts := Audit.scorePart mobile 0.2 + Audit.scorePart seo 0.2 +
    Audit.scorePart localSub 0.15 + Audit.scorePart conversion 0.1 +
    Audit.scorePart technical 0.05
  let tw := Audit.weightPart mobile 0.2 + Audit.weightPart seo 0.2 +
    Audit.weightPart localSub 0.15 + Audit.weightPart conversion 0.1 +
    Audit.weightPart technical 0.05
  if 0 < tw then Audit.jsRound (ts / tw) else 0

/-- C10: in the quick pipeline the performance sub-score never reaches
the aggregator; the health score equals the five-slot aggregation and
the denominator never contains the 0.30 performance weight. -/
theorem runQuickAuditHealthScore_spec (perf : QuickPerfResult)
    (mobile seo localSub conversion technical : Option ℚ) :
    runQuickAuditHealthScore perf mobile seo localSub conversion technical =
      quickAggregateSpec mobile seo localSub conversion technical ∧
      Audit.totalWeight
          ⟨quickPerfTopScore perf, mobile, seo, localSub, conversion, technical⟩ ≤
        0.7 := by
  constructor
  · simp [runQuickAuditHealthScore, quickPerfTopScore, Audit.calculateHealthScore,
      quickAggregateSpec, Audit.totalScore, Audit.totalWeight, Audit.scorePart,
      Audit.weightPart]
  · have hm := Audit.weightPart_le_weight mobile 0.2 (by norm_num)
    have hs := Audit.weightPart_le_weight seo 0.2 (by norm_num)
    have hl := Audit.weightPart_le_weight localSub 0.15 (by norm_num)
    have hc := Audit.weightPart_le_weight conversion 0.1 (by norm_num)
    have ht := Audit.weightPart_le_weight technical 0.05 (by norm_num)
    simp only [Audit.totalWeight, quickPerfTopScore, Audit.weightPart_none]
    linarith

end VercelAuditEngine

end Audit
